import Mathlib

/-!
Shallow embedding of the shopping-cart domain core (value objects, CartItem,
Cart aggregate, CheckoutResult) of the `shopping-cart-api` repository, together
with theorems settling the specification claims about it.

Modelling conventions:
* JavaScript strings are modelled as `List Char` (`Str`); `String.prototype.trim`
  becomes `jsTrim`, which removes leading and trailing whitespace characters.
* JavaScript `number` inputs that the code subjects to `Number.isInteger` checks
  (money amounts in cents, quantities, tax rates) are modelled as exact
  rationals `ℚ`; a rational is an integer iff its denominator is 1.  Validated
  integral values are stored as `Int`.  (`Math.round` on a non-negative value
  rounds half up, i.e. `⌊x + 1/2⌋`.)
* `new Date()` timestamps and freshly generated uuid item ids are injected as
  explicit `now` / `freshId` parameters, matching the specification's
  description of the clock and id generator as substitutable collaborators.
* A `throw` becomes `Except.error`; each thrown error is mapped to the tag the
  specification's error taxonomy (§7, §4) assigns to that throw site.
-/

deriving instance DecidableEq for Except

namespace ShoppingCart

/-- JavaScript strings, modelled as lists of characters. -/
abbrev Str := List Char

/-- Whitespace characters removed by `String.prototype.trim` (ASCII portion:
space, tab, line feed, vertical tab, form feed, carriage return). -/
def isJsWhitespace (c : Char) : Bool :=
  c = ' ' || c = '\t' || c = '\n' || c = Char.ofNat 11 || c = Char.ofNat 12 || c = '\r'

/-- `String.prototype.trim`: drop leading and trailing whitespace. -/
def jsTrim (s : Str) : Str :=
  ((s.dropWhile isJsWhitespace).reverse.dropWhile isJsWhitespace).reverse

/-- `Math.round` on an exact rational: round half toward positive infinity. -/
def jsMathRound (x : ℚ) : Int := ⌊x + 1 / 2⌋

/-- Currency enumeration from `Money.ts`. -/
inductive Currency
  | USD
  | EUR
  | GBP
deriving DecidableEq, Repr

/-- Error tags for every `throw` site of the embedded core, named after the
specification's error taxonomy (§4, §7).  Each constructor corresponds to the
spec name assigned to the message(s) thrown at the matching source location. -/
inductive Err
  /-- `Money.create`: non-integer or negative cents (spec `InvalidAmount`). -/
  | invalidAmount
  /-- `Money.add` / `Money.subtract` on differing currencies. -/
  | currencyMismatch
  /-- `Money.subtract` would go negative (spec `NegativeResult`). -/
  | negativeResult
  /-- `Money.multiply` with a negative or non-integer quantity. -/
  | invalidQuantity
  /-- `Quantity.create` on a non-integer (spec `NotInteger`). -/
  | notInteger
  /-- `Quantity.create` below 1 (spec `BelowMinimum`). -/
  | belowMinimum
  /-- `Quantity.create` above 99 and `Quantity.add` overflowing 99
  (spec `AboveMaximum` for both). -/
  | aboveMaximum
  /-- `ProductId.create` / `SessionId.create` on an empty-after-trim string. -/
  | emptyIdentifier
  /-- `ProductId.create` / `SessionId.create` pattern failure. -/
  | invalidFormat
  /-- `CartItem.create` with a productName that trims to empty. -/
  | emptyName
  /-- `assertCartIsActive` on a checked-out or abandoned cart
  (spec `CartNotActive`; the source throws a status-specific message). -/
  | cartNotActive
  /-- `addItemToCart` append branch at 20 items (spec `MaxItemsExceeded`). -/
  | maxItemsExceeded
  /-- `removeItemFromCart` / `updateItemQuantity` with an unknown itemId. -/
  | itemNotFound
  /-- `checkout` on a non-active cart (spec `CartAlreadyCheckedOut`; the source
  throws the one message `Cart has already been checked out` whether the prior
  status is `checked_out` or `abandoned`). -/
  | cartAlreadyCheckedOut
  /-- `checkout` on an empty active cart (spec `EmptyCart`). -/
  | emptyCart
  /-- `checkout`'s final catch-all throw (`Cart cannot be checked out`),
  unreachable given the two preceding branches. -/
  | cartCannotBeCheckedOut
  /-- `CheckoutResult.create` on a cart that is not checked out. -/
  | cartNotCheckedOut
deriving DecidableEq, Repr

/-! ### Money (`src/domain/value-objects/Money.ts`) -/

/-- `Money`: an amount in minor units (cents) with a currency.  The `amount`
field is `Int` because the source stores the already-validated cents value. -/
structure Money where
  amount : Int
  currency : Currency
deriving DecidableEq, Repr

/-- `createMoney(cents, currency)`: rejects non-integers and negatives. -/
def createMoney (cents : ℚ) (currency : Currency) : Except Err Money :=
  if cents.den ≠ 1 then .error .invalidAmount
  else if cents < 0 then .error .invalidAmount
  else .ok ⟨cents.num, currency⟩

/-- `addMoney(a, b)`: requires matching currencies, delegates to `createMoney`. -/
def addMoney (a b : Money) : Except Err Money :=
  if a.currency ≠ b.currency then .error .currencyMismatch
  else createMoney ((a.amount + b.amount : Int) : ℚ) a.currency

/-- `subtractMoney(a, b)`. -/
def subtractMoney (a b : Money) : Except Err Money :=
  if a.currency ≠ b.currency then .error .currencyMismatch
  else if a.amount < b.amount then .error .negativeResult
  else createMoney ((a.amount - b.amount : Int) : ℚ) a.currency

/-- `multiplyMoney(money, quantity)`: quantity must be a non-negative integer. -/
def multiplyMoney (money : Money) (quantity : ℚ) : Except Err Money :=
  if quantity < 0 then .error .invalidQuantity
  else if quantity.den ≠ 1 then .error .invalidQuantity
  else createMoney ((money.amount : ℚ) * quantity) money.currency

/-- `moneyEquals(a, b)`. -/
def moneyEquals (a b : Money) : Bool :=
  a.amount == b.amount && a.currency == b.currency

/-- `zeroMoney(currency)`; the source's `createMoney(0, currency)` cannot
throw, see `createMoney_zero`. -/
def zeroMoney (currency : Currency) : Money := ⟨0, currency⟩

/-! ### Quantity (`src/domain/value-objects/Quantity.ts`) -/

/-- `Quantity`: a validated item count; the source stores the validated
integer. -/
structure Quantity where
  value : Int
deriving DecidableEq, Repr

/-- `createQuantity(value)`: integer, at least 1, at most 99. -/
def createQuantity (value : ℚ) : Except Err Quantity :=
  if value.den ≠ 1 then .error .notInteger
  else if value < 1 then .error .belowMinimum
  else if value > 99 then .error .aboveMaximum
  else .ok ⟨value.num⟩

/-- `addQuantity(a, b)`: rejects sums above 99, then delegates to
`createQuantity`. -/
def addQuantity (a b : Quantity) : Except Err Quantity :=
  let sum := a.value + b.value
  if sum > 99 then .error .aboveMaximum
  else createQuantity ((sum : Int) : ℚ)

/-! ### ProductId / SessionId (`ProductId.ts`, `SessionId.ts`) -/

/-- A character allowed by `PRODUCT_ID_PATTERN = /^[a-zA-Z0-9-_]{1,50}$/`. -/
def productIdCharOk (c : Char) : Bool :=
  (('a' ≤ c && c ≤ 'z') || ('A' ≤ c && c ≤ 'Z') || ('0' ≤ c && c ≤ '9'))
    || c = '-' || c = '_'

/-- `PRODUCT_ID_PATTERN.test s`: 1 to 50 characters from the class. -/
def productIdPatternTest (s : Str) : Bool :=
  1 ≤ s.length && s.length ≤ 50 && s.all productIdCharOk

/-- `ProductId`: wrapper around the trimmed, validated string. -/
structure ProductId where
  value : Str
deriving DecidableEq, Repr

/-- `createProductId(value)`: trims, rejects empty and pattern failures.
(`!value || value.trim() === ''` is equivalent to the trimmed string being
empty, since an empty string is the only falsy string.) -/
def createProductId (value : Str) : Except Err ProductId :=
  if jsTrim value = [] then .error .emptyIdentifier
  else if productIdPatternTest (jsTrim value) then .ok ⟨jsTrim value⟩
  else .error .invalidFormat

/-- A character allowed by `SESSION_ID_PATTERN = /^[a-zA-Z0-9-]{1,100}$/`. -/
def sessionIdCharOk (c : Char) : Bool :=
  (('a' ≤ c && c ≤ 'z') || ('A' ≤ c && c ≤ 'Z') || ('0' ≤ c && c ≤ '9'))
    || c = '-'

/-- `SESSION_ID_PATTERN.test s`: 1 to 100 characters from the class. -/
def sessionIdPatternTest (s : Str) : Bool :=
  1 ≤ s.length && s.length ≤ 100 && s.all sessionIdCharOk

/-- `SessionId`: wrapper around the trimmed, validated string. -/
structure SessionId where
  value : Str
deriving DecidableEq, Repr

/-- `createSessionId(value)`. -/
def createSessionId (value : Str) : Except Err SessionId :=
  if jsTrim value = [] then .error .emptyIdentifier
  else if sessionIdPatternTest (jsTrim value) then .ok ⟨jsTrim value⟩
  else .error .invalidFormat

/-! ### CartItem (`src/domain/entities/CartItem.ts`) -/

/-- `CartItem`: a line item snapshotting product data at the time of adding. -/
structure CartItem where
  itemId : Str
  productId : ProductId
  productName : Str
  unitPrice : Money
  quantity : Quantity
  addedAt : Int
deriving DecidableEq, Repr

/-- `CreateCartItemInput` from `CartItem.ts` (optional fields as `Option`). -/
structure CreateCartItemInput where
  productId : Str
  productName : Str
  unitPriceInCents : ℚ
  currency : Option Currency
  quantity : ℚ
  itemId : Option Str
deriving DecidableEq, Repr

/-- `createCartItem(input)`: validates the name, then builds the record,
evaluating the field constructors in the source's object-literal order
(productId, unitPrice, quantity).  `now` is the injected clock, `freshId`
the injected uuid generator used when `input.itemId` is absent. -/
def createCartItem (now : Int) (freshId : Str) (input : CreateCartItemInput) :
    Except Err CartItem :=
  if jsTrim input.productName = [] then .error .emptyName
  else do
    let pid ← createProductId input.productId
    let price ← createMoney input.unitPriceInCents (input.currency.getD .USD)
    let qty ← createQuantity input.quantity
    .ok ⟨input.itemId.getD freshId, pid, jsTrim input.productName, price, qty, now⟩

/-- `updateCartItemQuantity(item, newQuantity)`: replaces only the quantity. -/
def updateCartItemQuantity (item : CartItem) (newQuantity : Quantity) : CartItem :=
  { item with quantity := newQuantity }

/-- `increaseCartItemQuantity(item, additionalQuantity)`. -/
def increaseCartItemQuantity (item : CartItem) (additionalQuantity : Quantity) :
    Except Err CartItem := do
  let newQuantity ← addQuantity item.quantity additionalQuantity
  .ok (updateCartItemQuantity item newQuantity)

/-- `calculateLineTotal(item) = multiplyMoney(item.unitPrice, item.quantity.value)`. -/
def calculateLineTotal (item : CartItem) : Except Err Money :=
  multiplyMoney item.unitPrice ((item.quantity.value : Int) : ℚ)

/-! ### Cart aggregate (`src/domain/entities/Cart.ts`) -/

/-- Cart status enumeration. -/
inductive CartStatus
  | active
  | checked_out
  | abandoned
deriving DecidableEq, Repr

/-- The `Cart` aggregate root. -/
structure Cart where
  sessionId : SessionId
  items : List CartItem
  status : CartStatus
  createdAt : Int
  updatedAt : Int
  currency : Currency
deriving DecidableEq, Repr

/-- `MAX_UNIQUE_ITEMS`. -/
def MAX_UNIQUE_ITEMS : Nat := 20

/-- `createCart(sessionId, currency)`: a fresh empty active cart. -/
def createCart (now : Int) (sessionId : Str) (currency : Currency) :
    Except Err Cart := do
  let sid ← createSessionId sessionId
  .ok ⟨sid, [], .active, now, now, currency⟩

/-- `assertCartIsActive(cart)`: both the checked-out and the abandoned branch
throw (with status-specific messages the spec groups under `CartNotActive`). -/
def assertCartIsActive (cart : Cart) : Except Err Unit :=
  if cart.status = .checked_out then .error .cartNotActive
  else if cart.status = .abandoned then .error .cartNotActive
  else .ok ()

/-- The predicate of `cart.items.findIndex(item => item.productId.value ===
input.productId)`: raw string comparison against the stored (trimmed) value. -/
def matchesInputProductId (inputProductId : Str) (item : CartItem) : Bool :=
  item.productId.value == inputProductId

/-- `addItemToCart(cart, input)`.  `List.findIdx` returns the list's length
when no element matches, so `idx < length` is JavaScript's
`existingItemIndex >= 0`. -/
def addItemToCart (now : Int) (freshId : Str) (cart : Cart)
    (input : CreateCartItemInput) : Except Err Cart := do
  let _ ← assertCartIsActive cart
  let idx := cart.items.findIdx (matchesInputProductId input.productId)
  if hlt : idx < cart.items.length then
    let existingItem := cart.items.get ⟨idx, hlt⟩
    let additionalQuantity ← createQuantity input.quantity
    let updatedItem ← increaseCartItemQuantity existingItem additionalQuantity
    .ok { cart with items := cart.items.set idx updatedItem, updatedAt := now }
  else
    if MAX_UNIQUE_ITEMS ≤ cart.items.length then .error .maxItemsExceeded
    else do
      let newItem ← createCartItem now freshId { input with currency := some cart.currency }
      .ok { cart with items := cart.items ++ [newItem], updatedAt := now }

/-- `removeItemFromCart(cart, itemId)`. -/
def removeItemFromCart (now : Int) (cart : Cart) (itemId : Str) :
    Except Err Cart := do
  let _ ← assertCartIsActive cart
  let idx := cart.items.findIdx (fun item => item.itemId == itemId)
  if idx < cart.items.length then
    .ok { cart with
          items := cart.items.filter (fun item => item.itemId != itemId),
          updatedAt := now }
  else .error .itemNotFound

/-- `updateItemQuantity(cart, itemId, quantity)`. -/
def updateItemQuantity (now : Int) (cart : Cart) (itemId : Str) (quantity : ℚ) :
    Except Err Cart := do
  let _ ← assertCartIsActive cart
  let idx := cart.items.findIdx (fun item => item.itemId == itemId)
  if hlt : idx < cart.items.length then do
    let newQuantity ← createQuantity quantity
    let existingItem := cart.items.get ⟨idx, hlt⟩
    .ok { cart with
          items := cart.items.set idx (updateCartItemQuantity existingItem newQuantity),
          updatedAt := now }
  else .error .itemNotFound

/-- `calculateCartTotal(cart)`: `reduce` with a throwing callback over the
items, starting from `zeroMoney(cart.currency)`; the callback evaluates
`calculateLineTotal(item)` and then `addMoney`. -/
def calculateCartTotal (cart : Cart) : Except Err Money :=
  cart.items.foldlM
    (fun total item => do
      let lineTotal ← calculateLineTotal item
      addMoney total lineTotal)
    (zeroMoney cart.currency)

/-- `getTotalItemCount(cart)`: `reduce` summing the quantity values. -/
def getTotalItemCount (cart : Cart) : Int :=
  cart.items.foldl (fun count item => count + item.quantity.value) 0

/-- `isCartEmpty(cart)`. -/
def isCartEmpty (cart : Cart) : Bool :=
  cart.items.length == 0

/-- `canCheckout(cart)`. -/
def canCheckout (cart : Cart) : Bool :=
  cart.status == .active && !(isCartEmpty cart)

/-- `checkout(cart)`: the status test precedes the emptiness test, and the
non-active branch throws one fixed message (`Cart has already been checked
out`) regardless of whether the status is `checked_out` or `abandoned`. -/
def checkout (now : Int) (cart : Cart) : Except Err Cart :=
  if !(canCheckout cart) then
    if cart.status ≠ .active then .error .cartAlreadyCheckedOut
    else if isCartEmpty cart then .error .emptyCart
    else .error .cartCannotBeCheckedOut
  else .ok { cart with status := .checked_out, updatedAt := now }

/-- `clearCart(cart)`. -/
def clearCart (now : Int) (cart : Cart) : Except Err Cart := do
  let _ ← assertCartIsActive cart
  .ok { cart with items := [], updatedAt := now }

/-- `findItemByProductId(cart, productId)`. -/
def findItemByProductId (cart : Cart) (productId : Str) : Option CartItem :=
  cart.items.find? (fun item => item.productId.value == productId)

/-- `findItemById(cart, itemId)`. -/
def findItemById (cart : Cart) (itemId : Str) : Option CartItem :=
  cart.items.find? (fun item => item.itemId == itemId)

/-! ### CheckoutResult (`src/domain/entities/CheckoutResult.ts`) -/

/-- One entry of `CheckoutResult.items`. -/
structure CheckoutLineItem where
  productId : Str
  productName : Str
  quantity : Int
  unitPriceInCents : Int
  lineTotalInCents : Int
deriving DecidableEq, Repr

/-- The `CheckoutResult` value object. -/
structure CheckoutResult where
  orderId : Str
  sessionId : Str
  items : List CheckoutLineItem
  subtotal : Money
  tax : Money
  total : Money
  itemCount : Int
  checkoutAt : Int
deriving DecidableEq, Repr

/-- The map building one `CheckoutLineItem`; `calculateLineTotal` can throw. -/
def toCheckoutLineItem (item : CartItem) : Except Err CheckoutLineItem := do
  let lineTotal ← calculateLineTotal item
  .ok ⟨item.productId.value, item.productName, item.quantity.value,
       item.unitPrice.amount, lineTotal.amount⟩

/-- `createCheckoutResult(input)`: requires a checked-out cart; builds line
items, sums the subtotal, computes `tax = Math.round(subtotal * taxRate)` and
`total = subtotal + tax`.  Note that the source assembles the `subtotal`,
`tax` and `total` `Money` records as plain object literals, NOT through
`createMoney`, so no non-negativity validation happens here. -/
def createCheckoutResult (now : Int) (orderId : Str) (cart : Cart)
    (taxRate : ℚ) : Except Err CheckoutResult :=
  if cart.status ≠ .checked_out then .error .cartNotCheckedOut
  else do
    let lineItems ← cart.items.mapM toCheckoutLineItem
    let subtotalAmount : Int :=
      lineItems.foldl (fun sum item => sum + item.lineTotalInCents) 0
    let taxAmount := jsMathRound ((subtotalAmount : ℚ) * taxRate)
    let totalAmount := subtotalAmount + taxAmount
    let itemCount := lineItems.foldl (fun count item => count + item.quantity) 0
    .ok ⟨orderId, cart.sessionId.value, lineItems,
         ⟨subtotalAmount, cart.currency⟩, ⟨taxAmount, cart.currency⟩,
         ⟨totalAmount, cart.currency⟩, itemCount, now⟩

/-! ### Reachable carts

A cart is reachable when it is produced by `createCart` followed by any finite
sequence of successful mutator calls (`addItemToCart`, `removeItemFromCart`,
`updateItemQuantity`, `clearCart`, `checkout`), keeping only `ok` results. -/

inductive Reachable : Cart → Prop
  | created (now : Int) (sessionId : Str) (currency : Currency) (cart : Cart) :
      createCart now sessionId currency = .ok cart → Reachable cart
  | addItem (now : Int) (freshId : Str) (cart : Cart)
      (input : CreateCartItemInput) (cart' : Cart) : Reachable cart →
      addItemToCart now freshId cart input = .ok cart' → Reachable cart'
  | removeItem (now : Int) (cart : Cart) (itemId : Str) (cart' : Cart) :
      Reachable cart → removeItemFromCart now cart itemId = .ok cart' →
      Reachable cart'
  | updateQuantity (now : Int) (cart : Cart) (itemId : Str) (quantity : ℚ)
      (cart' : Cart) : Reachable cart →
      updateItemQuantity now cart itemId quantity = .ok cart' → Reachable cart'
  | clear (now : Int) (cart : Cart) (cart' : Cart) : Reachable cart →
      clearCart now cart = .ok cart' → Reachable cart'
  | doCheckout (now : Int) (cart : Cart) (cart' : Cart) : Reachable cart →
      checkout now cart = .ok cart' → Reachable cart'

/-! ### Concrete fixtures used by witnesses and counterexamples -/

/-- A sample item: product `p1`, price 1000 cents, quantity 2. -/
def sampleItem1 : CartItem :=
  ⟨"i1".data, ⟨"p1".data⟩, "Prod".data, ⟨1000, .USD⟩, ⟨2⟩, 0⟩

/-- A second sample item: product `p2`, price 500 cents, quantity 3. -/
def sampleItem2 : CartItem :=
  ⟨"i2".data, ⟨"p2".data⟩, "Prod2".data, ⟨500, .USD⟩, ⟨3⟩, 0⟩

/-- A fresh empty active cart for session `s1`. -/
def sampleCartEmpty : Cart := ⟨⟨"s1".data⟩, [], .active, 0, 0, .USD⟩

/-- An active cart holding `sampleItem1`. -/
def sampleCart1 : Cart := ⟨⟨"s1".data⟩, [sampleItem1], .active, 0, 0, .USD⟩

/-- An active cart holding `sampleItem1` and `sampleItem2`. -/
def sampleCart2 : Cart :=
  ⟨⟨"s1".data⟩, [sampleItem1, sampleItem2], .active, 0, 0, .USD⟩

/-- A sample `CreateCartItemInput` for product `p1` with quantity `q`. -/
def sampleInput (productId : Str) (q : ℚ) : CreateCartItemInput :=
  ⟨productId, "Prod".data, 1000, none, q, some "i9".data⟩

/-- Twenty distinct one-character product ids. -/
def twentyIdChars : Str := "abcdefghijklmnopqrst".data

/-- A one-character-id item used to fill a 20-item cart. -/
def smallItem (c : Char) : CartItem := ⟨[c], ⟨[c]⟩, "P".data, ⟨100, .USD⟩, ⟨1⟩, 0⟩

/-- An active cart already holding 20 items with 20 distinct product ids. -/
def fullCart : Cart :=
  ⟨⟨"s1".data⟩, twentyIdChars.map smallItem, .active, 0, 0, .USD⟩

/-- Input for product `p1` with quantity 1 and explicit itemId `i1`. -/
def dupInput1 : CreateCartItemInput :=
  ⟨"p1".data, "Prod".data, 1000, none, 1, some "i1".data⟩

/-- Input for product ` p1` — note the leading space — quantity 1, itemId `i2`. -/
def dupInput2 : CreateCartItemInput :=
  ⟨" p1".data, "Prod".data, 1000, none, 1, some "i2".data⟩

/-- The item produced by adding `dupInput1` at time 1. -/
def dupItem1 : CartItem := ⟨"i1".data, ⟨"p1".data⟩, "Prod".data, ⟨1000, .USD⟩, ⟨1⟩, 1⟩

/-- The item produced by adding `dupInput2` at time 2: its stored productId is
the trimmed `p1`, identical to `dupItem1`'s. -/
def dupItem2 : CartItem := ⟨"i2".data, ⟨"p1".data⟩, "Prod".data, ⟨1000, .USD⟩, ⟨1⟩, 2⟩

/-- The cart reached after adding `dupInput1` to the fresh cart. -/
def dupCart1 : Cart := ⟨⟨"s1".data⟩, [dupItem1], .active, 0, 1, .USD⟩

/-- The cart reached after then adding `dupInput2`: two items for product `p1`. -/
def dupCart2 : Cart := ⟨⟨"s1".data⟩, [dupItem1, dupItem2], .active, 0, 2, .USD⟩

/-- Modelled from the spec (§4.5): `calculateTotal(cart)` is the sum of
`lineTotal` over all items — a left fold of `addMoney` — starting from the
zero Money in the cart's currency. -/
def specCartTotal (cart : Cart) : Except Err Money :=
  cart.items.foldlM
    (fun acc item => do
      let lineTotal ← calculateLineTotal item
      addMoney acc lineTotal)
    (zeroMoney cart.currency)

/-- An item satisfying the data model's invariants relative to a cart
currency: currency-uniform price snapshot, non-negative amount, quantity
between 1 and 99. -/
def ItemWF (c : Currency) (it : CartItem) : Prop :=
  it.unitPrice.currency = c ∧ 0 ≤ it.unitPrice.amount ∧
    1 ≤ it.quantity.value ∧ it.quantity.value ≤ 99

/-- All items of the cart satisfy `ItemWF` for the cart's currency. -/
def CartWF (cart : Cart) : Prop := ∀ it ∈ cart.items, ItemWF cart.currency it

/-- A checked-out cart with a single item priced 1000 cents at quantity 1
(subtotal 1000). -/
def checkedOutCart1000 : Cart :=
  ⟨⟨"s1".data⟩, [⟨"i1".data, ⟨"p1".data⟩, "Prod".data, ⟨1000, .USD⟩, ⟨1⟩, 0⟩],
   .checked_out, 0, 0, .USD⟩

/-! ### Characterization lemmas for the value-object constructors -/

theorem createMoney_intCast_ok (n : Int) (c : Currency) (h : 0 ≤ n) :
    createMoney ((n : Int) : ℚ) c = .ok ⟨n, c⟩ := by
  rw [createMoney, if_neg (by simp), if_neg (by exact_mod_cast not_lt.mpr h)]
  simp

theorem createMoney_zero (c : Currency) : createMoney 0 c = .ok (zeroMoney c) := rfl

theorem createMoney_ok_inv {cents : ℚ} {cur : Currency} {m : Money}
    (h : createMoney cents cur = .ok m) :
    m.currency = cur ∧ 0 ≤ m.amount ∧ cents = (m.amount : ℚ) := by
  rw [createMoney] at h
  by_cases h1 : cents.den ≠ 1
  · rw [if_pos h1] at h
    exact Except.noConfusion h
  · rw [if_neg h1] at h
    by_cases h2 : cents < 0
    · rw [if_pos h2] at h
      exact Except.noConfusion h
    · rw [if_neg h2] at h
      injection h with h
      subst h
      refine ⟨rfl, ?_, ?_⟩
      · exact Rat.num_nonneg.mpr (not_lt.mp h2)
      · exact (Rat.coe_int_num_of_den_eq_one (not_not.mp h1)).symm

theorem createQuantity_intCast_ok (n : Int) (h1 : 1 ≤ n) (h99 : n ≤ 99) :
    createQuantity ((n : Int) : ℚ) = .ok ⟨n⟩ := by
  rw [createQuantity, if_neg (by simp), if_neg (by exact_mod_cast not_lt.mpr h1),
    if_neg (by exact_mod_cast not_lt.mpr h99)]
  simp

theorem createQuantity_ok_inv {v : ℚ} {q : Quantity}
    (h : createQuantity v = .ok q) :
    v = (q.value : ℚ) ∧ 1 ≤ q.value ∧ q.value ≤ 99 := by
  rw [createQuantity] at h
  by_cases h1 : v.den ≠ 1
  · rw [if_pos h1] at h
    exact Except.noConfusion h
  · rw [if_neg h1] at h
    by_cases h2 : v < 1
    · rw [if_pos h2] at h
      exact Except.noConfusion h
    · rw [if_neg h2] at h
      by_cases h3 : v > 99
      · rw [if_pos h3] at h
        exact Except.noConfusion h
      · rw [if_neg h3] at h
        injection h with h
        subst h
        have hv : ((v.num : Int) : ℚ) = v :=
          Rat.coe_int_num_of_den_eq_one (not_not.mp h1)
        refine ⟨hv.symm, ?_, ?_⟩
        · have hle := not_lt.mp h2
          rw [← hv] at hle
          exact_mod_cast hle
        · have hle := not_lt.mp h3
          rw [← hv] at hle
          exact_mod_cast hle

theorem addQuantity_eq (a b : Quantity) (ha : 1 ≤ a.value) (hb : 1 ≤ b.value) :
    addQuantity a b =
      if 99 < a.value + b.value then .error .aboveMaximum
      else .ok ⟨a.value + b.value⟩ := by
  simp only [addQuantity]
  by_cases h : 99 < a.value + b.value
  · rw [if_pos h, if_pos h]
  · rw [if_neg h, if_neg h, createQuantity_intCast_ok _ (by omega) (by omega)]

theorem addMoney_ok (a b : Money) (hc : a.currency = b.currency)
    (ha : 0 ≤ a.amount) (hb : 0 ≤ b.amount) :
    addMoney a b = .ok ⟨a.amount + b.amount, a.currency⟩ := by
  rw [addMoney, if_neg (by simp [hc]), createMoney_intCast_ok _ _ (by omega)]

theorem calculateLineTotal_ok (item : CartItem) (hp : 0 ≤ item.unitPrice.amount)
    (hq : 0 ≤ item.quantity.value) :
    calculateLineTotal item =
      .ok ⟨item.unitPrice.amount * item.quantity.value, item.unitPrice.currency⟩ := by
  rw [calculateLineTotal, multiplyMoney, if_neg (by exact_mod_cast not_lt.mpr hq),
    if_neg (by simp)]
  have hcast :
      (item.unitPrice.amount : ℚ) * ((item.quantity.value : Int) : ℚ) =
        ((item.unitPrice.amount * item.quantity.value : Int) : ℚ) := by
    push_cast
    ring
  rw [hcast, createMoney_intCast_ok _ _ (mul_nonneg hp hq)]

/-! ### Lemmas about `jsTrim` and the identifier patterns -/

theorem dropWhile_eq_self_of_all_false {p : Char → Bool} {l : Str}
    (h : ∀ c ∈ l, p c = false) : l.dropWhile p = l := by
  cases l with
  | nil => rfl
  | cons a l =>
      exact List.dropWhile_cons_of_neg (by simp [h a (List.mem_cons_self a l)])

theorem jsTrim_eq_self {s : Str} (h : ∀ c ∈ s, isJsWhitespace c = false) :
    jsTrim s = s := by
  rw [jsTrim, dropWhile_eq_self_of_all_false h,
    dropWhile_eq_self_of_all_false (fun c hc => h c (List.mem_reverse.mp hc)),
    List.reverse_reverse]

theorem productIdCharOk_not_ws (c : Char) (h : productIdCharOk c = true) :
    isJsWhitespace c = false := by
  by_contra hws
  rw [Bool.not_eq_false] at hws
  simp only [isJsWhitespace, Bool.or_eq_true, decide_eq_true_eq] at hws
  rcases hws with ((((h1 | h1) | h1) | h1) | h1) | h1 <;> subst h1 <;>
    exact absurd h (by decide)

theorem sessionIdCharOk_not_ws (c : Char) (h : sessionIdCharOk c = true) :
    isJsWhitespace c = false := by
  by_contra hws
  rw [Bool.not_eq_false] at hws
  simp only [isJsWhitespace, Bool.or_eq_true, decide_eq_true_eq] at hws
  rcases hws with ((((h1 | h1) | h1) | h1) | h1) | h1 <;> subst h1 <;>
    exact absurd h (by decide)

theorem productIdPattern_no_ws {s : Str} (h : productIdPatternTest s = true) :
    ∀ c ∈ s, isJsWhitespace c = false := by
  simp only [productIdPatternTest, Bool.and_eq_true, List.all_eq_true,
    decide_eq_true_eq] at h
  exact fun c hc => productIdCharOk_not_ws c (h.2 c hc)

theorem sessionIdPattern_no_ws {s : Str} (h : sessionIdPatternTest s = true) :
    ∀ c ∈ s, isJsWhitespace c = false := by
  simp only [sessionIdPatternTest, Bool.and_eq_true, List.all_eq_true,
    decide_eq_true_eq] at h
  exact fun c hc => sessionIdCharOk_not_ws c (h.2 c hc)

theorem createProductId_ok_inv {raw : Str} {p : ProductId}
    (h : createProductId raw = .ok p) :
    p.value = jsTrim raw ∧ jsTrim raw ≠ [] ∧
      productIdPatternTest (jsTrim raw) = true := by
  rw [createProductId] at h
  by_cases h1 : jsTrim raw = []
  · rw [if_pos h1] at h
    exact Except.noConfusion h
  · rw [if_neg h1] at h
    by_cases h2 : productIdPatternTest (jsTrim raw) = true
    · rw [if_pos h2] at h
      injection h with h
      subst h
      exact ⟨rfl, h1, h2⟩
    · rw [if_neg h2] at h
      exact Except.noConfusion h

theorem createSessionId_ok_inv {raw : Str} {s : SessionId}
    (h : createSessionId raw = .ok s) :
    s.value = jsTrim raw ∧ jsTrim raw ≠ [] ∧
      sessionIdPatternTest (jsTrim raw) = true := by
  rw [createSessionId] at h
  by_cases h1 : jsTrim raw = []
  · rw [if_pos h1] at h
    exact Except.noConfusion h
  · rw [if_neg h1] at h
    by_cases h2 : sessionIdPatternTest (jsTrim raw) = true
    · rw [if_pos h2] at h
      injection h with h
      subst h
      exact ⟨rfl, h1, h2⟩
    · rw [if_neg h2] at h
      exact Except.noConfusion h

/-- Sequencing after a failed step propagates the failure. -/
@[simp] theorem exceptBind_error {ε α β : Type} (e : ε) (f : α → Except ε β) :
    (Except.error e >>= f) = Except.error e := rfl

/-- Sequencing after a successful step continues with its value. -/
@[simp] theorem exceptBind_ok {ε α β : Type} (a : α) (f : α → Except ε β) :
    (Except.ok a >>= f) = f a := rfl

/-! ### Round trips of the value-object constructors -/

theorem createProductId_roundTrip {raw : Str} {p : ProductId}
    (h : createProductId raw = .ok p) : createProductId p.value = .ok p := by
  obtain ⟨hv, hne, hpat⟩ := createProductId_ok_inv h
  have htrim : jsTrim p.value = p.value :=
    jsTrim_eq_self (by rw [hv]; exact productIdPattern_no_ws hpat)
  rw [createProductId, htrim, if_neg (by rw [hv]; exact hne),
    if_pos (by rw [hv]; exact hpat)]

theorem createSessionId_roundTrip {raw : Str} {s : SessionId}
    (h : createSessionId raw = .ok s) : createSessionId s.value = .ok s := by
  obtain ⟨hv, hne, hpat⟩ := createSessionId_ok_inv h
  have htrim : jsTrim s.value = s.value :=
    jsTrim_eq_self (by rw [hv]; exact sessionIdPattern_no_ws hpat)
  rw [createSessionId, htrim, if_neg (by rw [hv]; exact hne),
    if_pos (by rw [hv]; exact hpat)]

theorem createQuantity_roundTrip {v : ℚ} {q : Quantity}
    (h : createQuantity v = .ok q) :
    createQuantity ((q.value : Int) : ℚ) = .ok q := by
  obtain ⟨-, h1, h99⟩ := createQuantity_ok_inv h
  rw [createQuantity_intCast_ok _ h1 h99]

theorem createMoney_roundTrip {cents : ℚ} {cur : Currency} {m : Money}
    (h : createMoney cents cur = .ok m) :
    createMoney ((m.amount : Int) : ℚ) m.currency = .ok m := by
  obtain ⟨-, hnn, -⟩ := createMoney_ok_inv h
  rw [createMoney_intCast_ok _ _ hnn]

/-- **C9.** Validation is idempotent as a round trip: for every value object
successfully created, applying the corresponding create function to the value
carried by that output yields an equal value object — `createProductId p.value
= .ok p`, `createSessionId s.value = .ok s`, `createQuantity q.value = .ok q`,
and `createMoney m.amount m.currency = .ok m`. -/
theorem claim9_valueObject_roundTrip :
    (∀ (raw : Str) (p : ProductId),
      createProductId raw = .ok p → createProductId p.value = .ok p) ∧
    (∀ (raw : Str) (s : SessionId),
      createSessionId raw = .ok s → createSessionId s.value = .ok s) ∧
    (∀ (v : ℚ) (q : Quantity),
      createQuantity v = .ok q → createQuantity ((q.value : Int) : ℚ) = .ok q) ∧
    (∀ (cents : ℚ) (cur : Currency) (m : Money),
      createMoney cents cur = .ok m →
        createMoney ((m.amount : Int) : ℚ) m.currency = .ok m) :=
  ⟨fun _ _ h => createProductId_roundTrip h,
   fun _ _ h => createSessionId_roundTrip h,
   fun _ _ h => createQuantity_roundTrip h,
   fun _ _ _ h => createMoney_roundTrip h⟩

/-- Witness for C9 at concrete inputs (note ` p-1` is trimmed on creation). -/
theorem claim9_valueObject_roundTrip_witness :
    createProductId "p-1".data = .ok ⟨"p-1".data⟩ ∧
    createSessionId "s1".data = .ok ⟨"s1".data⟩ ∧
    createQuantity ((5 : Int) : ℚ) = .ok ⟨5⟩ ∧
    createMoney ((100 : Int) : ℚ) .USD = .ok ⟨100, .USD⟩ :=
  ⟨claim9_valueObject_roundTrip.1 " p-1".data ⟨"p-1".data⟩ (by decide),
   claim9_valueObject_roundTrip.2.1 " s1".data ⟨"s1".data⟩ (by decide),
   claim9_valueObject_roundTrip.2.2.1 (5 : ℚ) ⟨5⟩ (by decide),
   claim9_valueObject_roundTrip.2.2.2 (100 : ℚ) .USD ⟨100, .USD⟩ (by decide)⟩

/-! ### Checkout preconditions (C3) and status gating (C4) -/

/-- **C3 counterexample.** The claim says the `CartAlreadyCheckedOut` failure
distinguishes whether the prior status was `checked_out` or `abandoned`.  It
does not: on two carts differing only in that status, `checkout` returns the
very same error value (the source throws the identical message
`Cart has already been checked out` in both cases). -/
theorem claim3_error_not_distinguishing :
    checkout 7 { sampleCart1 with status := .abandoned } =
      checkout 7 { sampleCart1 with status := .checked_out } ∧
    checkout 7 { sampleCart1 with status := .abandoned } =
      .error .cartAlreadyCheckedOut :=
  ⟨rfl, rfl⟩

/-- **C3 (amended).** `checkout` on an empty cart with status active fails
with `EmptyCart`; on a cart whose status is `checked_out` or `abandoned` it
fails with `CartAlreadyCheckedOut` (the same error in both cases, without
distinguishing the prior status); on a non-empty active cart it succeeds and
returns a cart whose status is `checked_out` with the items unchanged. -/
theorem claim3_checkout_preconditions :
    ∀ (now : Int) (cart : Cart),
      (cart.status = .active → cart.items = [] →
        checkout now cart = .error .emptyCart) ∧
      (cart.status ≠ .active →
        checkout now cart = .error .cartAlreadyCheckedOut) ∧
      (cart.status = .active → cart.items ≠ [] →
        checkout now cart =
          .ok { cart with status := .checked_out, updatedAt := now }) := by
  intro now cart
  refine ⟨?_, ?_, ?_⟩
  · intro hs hi
    simp [checkout, canCheckout, isCartEmpty, hs, hi]
  · intro hs
    simp [checkout, canCheckout, isCartEmpty, hs]
  · intro hs hi
    simp [checkout, canCheckout, isCartEmpty, hs, hi, List.length_eq_zero]

/-- Witness for C3 at concrete carts: the empty active cart, an abandoned
cart, and a one-item active cart. -/
theorem claim3_checkout_preconditions_witness :
    checkout 7 sampleCartEmpty = .error .emptyCart ∧
    checkout 7 { sampleCart1 with status := .abandoned } =
      .error .cartAlreadyCheckedOut ∧
    checkout 7 sampleCart1 =
      .ok { sampleCart1 with status := .checked_out, updatedAt := 7 } :=
  ⟨(claim3_checkout_preconditions 7 sampleCartEmpty).1 rfl rfl,
   (claim3_checkout_preconditions 7 _).2.1 (by decide),
   (claim3_checkout_preconditions 7 sampleCart1).2.2 rfl (by decide)⟩

/-- On a non-active cart the active-status assertion fails with the spec's
`CartNotActive` error (the source message depends on the status, the spec tag
does not). -/
theorem assertCartIsActive_inactive {cart : Cart} (hs : cart.status ≠ .active) :
    assertCartIsActive cart = .error .cartNotActive := by
  cases hcs : cart.status with
  | active => exact absurd hcs hs
  | checked_out => simp [assertCartIsActive, hcs]
  | abandoned => simp [assertCartIsActive, hcs]

/-- **C4.** For every cart whose status is not active (`checked_out` or
`abandoned`) and every input, each mutator `addItemToCart`,
`removeItemFromCart`, `updateItemQuantity` and `clearCart` fails with
`CartNotActive`, and no new cart value is produced (the result is an error,
so the caller keeps the unchanged input cart — atomicity on error). -/
theorem claim4_mutators_require_active :
    ∀ (now : Int) (freshId : Str) (cart : Cart) (input : CreateCartItemInput)
      (itemId : Str) (q : ℚ),
      cart.status ≠ .active →
      addItemToCart now freshId cart input = .error .cartNotActive ∧
      removeItemFromCart now cart itemId = .error .cartNotActive ∧
      updateItemQuantity now cart itemId q = .error .cartNotActive ∧
      clearCart now cart = .error .cartNotActive := by
  intro now freshId cart input itemId q hs
  have ha := assertCartIsActive_inactive hs
  refine ⟨?_, ?_, ?_, ?_⟩
  · simp [addItemToCart, ha]
  · simp [removeItemFromCart, ha]
  · simp [updateItemQuantity, ha]
  · simp [clearCart, ha]

/-- Witness for C4: all four mutators on a concrete checked-out cart. -/
theorem claim4_mutators_require_active_witness :
    addItemToCart 7 "f".data { sampleCart1 with status := .checked_out }
        (sampleInput "p1".data 1) = .error .cartNotActive ∧
    removeItemFromCart 7 { sampleCart1 with status := .checked_out } "i1".data =
      .error .cartNotActive ∧
    updateItemQuantity 7 { sampleCart1 with status := .checked_out } "i1".data 5 =
      .error .cartNotActive ∧
    clearCart 7 { sampleCart1 with status := .checked_out } =
      .error .cartNotActive :=
  claim4_mutators_require_active 7 "f".data
    { sampleCart1 with status := .checked_out }
    (sampleInput "p1".data 1) "i1".data 5 (by decide)

/-! ### Merging into an existing item (C1) and the 20-item cap (C6) -/

/-- On an active cart the active-status assertion succeeds. -/
theorem assertCartIsActive_active {cart : Cart} (hs : cart.status = .active) :
    assertCartIsActive cart = .ok () := by
  simp [assertCartIsActive, hs]

/-- `createQuantity` succeeds on an integral rational between 1 and 99. -/
theorem createQuantity_ok_of_bounds {v : ℚ} (hden : v.den = 1) (h1 : 1 ≤ v)
    (h99 : v ≤ 99) : createQuantity v = .ok ⟨v.num⟩ := by
  rw [createQuantity, if_neg (by simp [hden]), if_neg (not_lt.mpr h1),
    if_neg (not_lt.mpr h99)]

/-- Replacing a list element by one with the same predicate status leaves
`countP` unchanged. -/
theorem countP_set_eq {α : Type} (p : α → Bool) :
    ∀ (l : List α) (i : Nat) (hi : i < l.length) (a : α),
      p a = p (l.get ⟨i, hi⟩) → (l.set i a).countP p = l.countP p := by
  intro l
  induction l with
  | nil =>
      intro i hi
      simp at hi
  | cons b l ih =>
      intro i hi a hp
      cases i with
      | zero =>
          simp only [List.set_cons_zero, List.countP_cons]
          rw [hp]
          rfl
      | succ n =>
          simp only [List.set_cons_succ, List.countP_cons]
          rw [ih n (Nat.lt_of_succ_lt_succ hi) a hp]

/-- **C1.** For every active cart containing an item for productId P at index
`i` (any index — in particular also in a cart already holding 20 items, since
the merge branch never consults the cap) and every integer quantity `q` with
`1 ≤ q ≤ 99`, `addItemToCart` with productId P and quantity `q` returns a cart
with exactly one item for P, at the same index, with the same itemId,
unitPrice, productName and addedAt as before, whose quantity is the prior
quantity plus `q`, provided the sum is at most 99; if the sum exceeds 99 it
fails with `AboveMaximum` and no new cart is produced.  The cart is assumed to
satisfy the data model's invariants for the quantified situation: exactly one
item for P (`countP … = 1`) and a valid stored quantity (`1 ≤ value`). -/
theorem claim1_merge_existing :
    ∀ (now : Int) (freshId : Str) (cart : Cart) (input : CreateCartItemInput)
      (i : Nat) (hi : i < cart.items.length),
      cart.status = .active →
      cart.items.findIdx (matchesInputProductId input.productId) = i →
      cart.items.countP (matchesInputProductId input.productId) = 1 →
      1 ≤ (cart.items.get ⟨i, hi⟩).quantity.value →
      input.quantity.den = 1 → 1 ≤ input.quantity → input.quantity ≤ 99 →
      (((cart.items.get ⟨i, hi⟩).quantity.value + input.quantity.num ≤ 99 →
        addItemToCart now freshId cart input =
          .ok { cart with
                items := cart.items.set i
                  { cart.items.get ⟨i, hi⟩ with
                    quantity := ⟨(cart.items.get ⟨i, hi⟩).quantity.value +
                                  input.quantity.num⟩ },
                updatedAt := now } ∧
        (cart.items.set i
            { cart.items.get ⟨i, hi⟩ with
              quantity := ⟨(cart.items.get ⟨i, hi⟩).quantity.value +
                            input.quantity.num⟩ }).countP
          (matchesInputProductId input.productId) = 1) ∧
      (99 < (cart.items.get ⟨i, hi⟩).quantity.value + input.quantity.num →
        addItemToCart now freshId cart input = .error .aboveMaximum)) := by
  intro now freshId cart input i hi hact hfind huniq hprior hden hq1 hq99
  subst hfind
  have hqv : ((input.quantity.num : Int) : ℚ) = input.quantity :=
    Rat.coe_int_num_of_den_eq_one hden
  have hq1' : 1 ≤ input.quantity.num := by
    rw [← hqv] at hq1
    exact_mod_cast hq1
  have hassert := assertCartIsActive_active hact
  have hkey :
      addItemToCart now freshId cart input =
        if 99 < (cart.items.get
            ⟨cart.items.findIdx (matchesInputProductId input.productId), hi⟩).quantity.value +
            input.quantity.num then
          .error .aboveMaximum
        else
          .ok { cart with
                items := cart.items.set
                  (cart.items.findIdx (matchesInputProductId input.productId))
                  { cart.items.get
                      ⟨cart.items.findIdx (matchesInputProductId input.productId), hi⟩ with
                    quantity := ⟨(cart.items.get
                        ⟨cart.items.findIdx (matchesInputProductId input.productId),
                          hi⟩).quantity.value + input.quantity.num⟩ },
                updatedAt := now } := by
    simp only [addItemToCart, hassert, exceptBind_ok]
    rw [dif_pos hi, createQuantity_ok_of_bounds hden hq1 hq99, exceptBind_ok]
    simp only [increaseCartItemQuantity]
    rw [addQuantity_eq
      (cart.items.get
        ⟨cart.items.findIdx (matchesInputProductId input.productId), hi⟩).quantity
      ⟨input.quantity.num⟩ hprior hq1']
    by_cases hsum :
        99 < (cart.items.get
          ⟨cart.items.findIdx (matchesInputProductId input.productId), hi⟩).quantity.value +
          input.quantity.num
    · rw [if_pos hsum, if_pos hsum]
      rfl
    · rw [if_neg hsum, if_neg hsum]
      rfl
  constructor
  · intro hle
    rw [hkey, if_neg (not_lt.mpr hle)]
    refine ⟨rfl, ?_⟩
    have hcount := countP_set_eq (matchesInputProductId input.productId)
      cart.items (cart.items.findIdx (matchesInputProductId input.productId)) hi
      { cart.items.get
          ⟨cart.items.findIdx (matchesInputProductId input.productId), hi⟩ with
        quantity := ⟨(cart.items.get
            ⟨cart.items.findIdx (matchesInputProductId input.productId),
              hi⟩).quantity.value + input.quantity.num⟩ } rfl
    exact hcount.trans huniq
  · intro hgt
    rw [hkey, if_pos hgt]

/-- Witness for C1: merging quantity 3 into `sampleCart1` (product `p1`,
prior quantity 2) yields the same single item with quantity 5. -/
theorem claim1_merge_existing_witness :
    addItemToCart 7 "f".data sampleCart1 (sampleInput "p1".data 3) =
      .ok { sampleCart1 with
            items := [{ sampleItem1 with quantity := ⟨5⟩ }], updatedAt := 7 } :=
  ((claim1_merge_existing 7 "f".data sampleCart1 (sampleInput "p1".data 3) 0
      (by decide) rfl rfl (by decide) (by decide) (by decide) (by decide)
      (by decide)).1 (by decide)).1

/-- **C6.** For every active cart holding exactly 20 items with 20 distinct
productIds, `addItemToCart` with a 21st distinct productId fails with
`MaxItemsExceeded` and the cart is unchanged (the call returns an error, so no
new cart value is produced and no partial mutation occurs). -/
theorem claim6_max_items :
    ∀ (now : Int) (freshId : Str) (cart : Cart) (input : CreateCartItemInput),
      cart.status = .active →
      cart.items.length = 20 →
      (cart.items.map (fun it => it.productId)).Nodup →
      (∀ it ∈ cart.items, matchesInputProductId input.productId it = false) →
      addItemToCart now freshId cart input = .error .maxItemsExceeded := by
  intro now freshId cart input hact hlen hnodup hnew
  have hassert := assertCartIsActive_active hact
  have hfind :
      cart.items.findIdx (matchesInputProductId input.productId) =
        cart.items.length :=
    List.findIdx_eq_length_of_false hnew
  simp only [addItemToCart, hassert, exceptBind_ok]
  rw [dif_neg (by rw [hfind]; exact lt_irrefl _),
    if_pos (by rw [hlen]; decide)]

/-- Witness for C6: a 21st distinct product on the concrete 20-item cart. -/
theorem claim6_max_items_witness :
    addItemToCart 7 "f".data fullCart (sampleInput "u".data 1) =
      .error .maxItemsExceeded :=
  claim6_max_items 7 "f".data fullCart (sampleInput "u".data 1) rfl
    (by decide) (by decide) (by decide)

/-! ### Totals (C8) and the CheckoutResult Money bug (C5) -/

/-- Folding integer addition of `f` over a list from `n` gives `n` plus the
sum of the mapped values. -/
theorem foldl_add_eq_sum {α : Type} (f : α → Int) :
    ∀ (l : List α) (n : Int),
      l.foldl (fun acc x => acc + f x) n = n + (l.map f).sum := by
  intro l
  induction l with
  | nil => simp
  | cons a l ih =>
      intro n
      rw [List.foldl_cons, ih, List.map_cons, List.sum_cons]
      ring

/-- **C8.** For every cart (regardless of status), `calculateCartTotal`
equals the left fold of `addMoney` over the `lineTotal` of each item in
order, starting from the zero Money in the cart's currency
(`specCartTotal`, written from the spec's words), and `getTotalItemCount`
equals the sum of all item quantity values; in particular, for the cart with
items priced 1000 and 500 minor units at quantities 2 and 3 in the same
currency, the total is 3500 and the item count is 5. -/
theorem claim8_total_and_count :
    (∀ cart : Cart, calculateCartTotal cart = specCartTotal cart) ∧
    (∀ cart : Cart,
      getTotalItemCount cart =
        (cart.items.map (fun it => it.quantity.value)).sum) ∧
    calculateCartTotal sampleCart2 = .ok ⟨3500, .USD⟩ ∧
    getTotalItemCount sampleCart2 = 5 := by
  refine ⟨fun cart => rfl, fun cart => ?_, by with_unfolding_all rfl,
    by with_unfolding_all rfl⟩
  rw [getTotalItemCount, foldl_add_eq_sum (fun it => it.quantity.value)
    cart.items 0]
  simp

/-- **C5 (code-bug evaluation).** `createCheckoutResult` assembles the `tax`
`Money` as a plain record, bypassing `createMoney`, so a negative `taxRate`
produces a `Money` whose amount is negative — violating the Money invariant
that the spec requires of every Money produced by the core.  Concretely: a
checked-out cart with subtotal 2000 and taxRate −1/2 yields `tax.amount
= −1000 < 0`. -/
theorem claim5_negative_tax_money :
    (createCheckoutResult 7 "o1".data { sampleCart1 with status := .checked_out }
        (-(1 : ℚ) / 2)).map (fun r => r.tax.amount) = .ok (-1000) ∧
    (-1000 : Int) < 0 := by
  refine ⟨by with_unfolding_all rfl, by decide⟩

/-! ### Preservation of the cart invariants along reachable states (C10, C2) -/

theorem addQuantity_ok_inv {a b q : Quantity} (h : addQuantity a b = .ok q) :
    1 ≤ q.value ∧ q.value ≤ 99 := by
  simp only [addQuantity] at h
  by_cases hs : a.value + b.value > 99
  · rw [if_pos hs] at h
    exact Except.noConfusion h
  · rw [if_neg hs] at h
    obtain ⟨-, h1, h99⟩ := createQuantity_ok_inv h
    exact ⟨h1, h99⟩

/-- A successfully created item carries the currency the input specifies, a
non-negative amount and an in-range quantity. -/
theorem createCartItem_wf {now : Int} {freshId : Str}
    {input : CreateCartItemInput} {c : Currency} {item : CartItem}
    (hcur : input.currency = some c)
    (h : createCartItem now freshId input = .ok item) : ItemWF c item := by
  rw [createCartItem] at h
  by_cases hname : jsTrim input.productName = []
  · rw [if_pos hname] at h
    exact Except.noConfusion h
  · rw [if_neg hname] at h
    cases hpid : createProductId input.productId with
    | error e =>
        rw [hpid, exceptBind_error] at h
        exact Except.noConfusion h
    | ok pid =>
        rw [hpid, exceptBind_ok] at h
        cases hprice : createMoney input.unitPriceInCents (input.currency.getD .USD) with
        | error e =>
            rw [hprice, exceptBind_error] at h
            exact Except.noConfusion h
        | ok price =>
            rw [hprice, exceptBind_ok] at h
            cases hqty : createQuantity input.quantity with
            | error e =>
                rw [hqty, exceptBind_error] at h
                exact Except.noConfusion h
            | ok qty =>
                rw [hqty, exceptBind_ok] at h
                injection h with h
                subst h
                obtain ⟨hc, hnn, -⟩ := createMoney_ok_inv hprice
                obtain ⟨-, h1, h99⟩ := createQuantity_ok_inv hqty
                rw [hcur] at hc
                exact ⟨hc, hnn, h1, h99⟩

theorem addItemToCart_wf {now : Int} {freshId : Str} {cart : Cart}
    {input : CreateCartItemInput} {cart' : Cart} (hwf : CartWF cart)
    (h : addItemToCart now freshId cart input = .ok cart') : CartWF cart' := by
  rw [addItemToCart] at h
  cases hassert : assertCartIsActive cart with
  | error e =>
      rw [hassert, exceptBind_error] at h
      exact Except.noConfusion h
  | ok u =>
      rw [hassert, exceptBind_ok] at h
      by_cases hlt :
          cart.items.findIdx (matchesInputProductId input.productId) <
            cart.items.length
      · rw [dif_pos hlt] at h
        cases hq : createQuantity input.quantity with
        | error e =>
            rw [hq, exceptBind_error] at h
            exact Except.noConfusion h
        | ok aq =>
            rw [hq, exceptBind_ok] at h
            simp only [increaseCartItemQuantity] at h
            cases haq :
                addQuantity
                  (cart.items.get
                    ⟨cart.items.findIdx (matchesInputProductId input.productId),
                      hlt⟩).quantity aq with
            | error e =>
                rw [haq, exceptBind_error] at h
                exact Except.noConfusion h
            | ok nq =>
                rw [haq, exceptBind_ok] at h
                injection h with h
                subst h
                intro it hit
                rcases List.mem_or_eq_of_mem_set hit with hmem | hmem
                · exact hwf it hmem
                · subst hmem
                  obtain ⟨hcur, hnn, -, -⟩ :=
                    hwf _ (List.get_mem cart.items _ hlt)
                  obtain ⟨h1, h99⟩ := addQuantity_ok_inv haq
                  exact ⟨hcur, hnn, h1, h99⟩
      · rw [dif_neg hlt] at h
        by_cases hmax : MAX_UNIQUE_ITEMS ≤ cart.items.length
        · rw [if_pos hmax] at h
          exact Except.noConfusion h
        · rw [if_neg hmax] at h
          cases hni : createCartItem now freshId
              { input with currency := some cart.currency } with
          | error e =>
              rw [hni, exceptBind_error] at h
              exact Except.noConfusion h
          | ok newItem =>
              rw [hni, exceptBind_ok] at h
              injection h with h
              subst h
              intro it hit
              rcases List.mem_append.mp hit with hmem | hmem
              · exact hwf it hmem
              · rw [List.mem_singleton] at hmem
                subst hmem
                exact createCartItem_wf rfl hni

theorem removeItemFromCart_wf {now : Int} {cart : Cart} {itemId : Str}
    {cart' : Cart} (hwf : CartWF cart)
    (h : removeItemFromCart now cart itemId = .ok cart') : CartWF cart' := by
  rw [removeItemFromCart] at h
  cases hassert : assertCartIsActive cart with
  | error e =>
      rw [hassert, exceptBind_error] at h
      exact Except.noConfusion h
  | ok u =>
      rw [hassert, exceptBind_ok] at h
      by_cases hlt :
          cart.items.findIdx (fun item => item.itemId == itemId) <
            cart.items.length
      · rw [if_pos hlt] at h
        injection h with h
        subst h
        intro it hit
        exact hwf it (List.mem_filter.mp hit).1
      · rw [if_neg hlt] at h
        exact Except.noConfusion h

theorem updateItemQuantity_wf {now : Int} {cart : Cart} {itemId : Str}
    {q : ℚ} {cart' : Cart} (hwf : CartWF cart)
    (h : updateItemQuantity now cart itemId q = .ok cart') : CartWF cart' := by
  rw [updateItemQuantity] at h
  cases hassert : assertCartIsActive cart with
  | error e =>
      rw [hassert, exceptBind_error] at h
      exact Except.noConfusion h
  | ok u =>
      rw [hassert, exceptBind_ok] at h
      by_cases hlt :
          cart.items.findIdx (fun item => item.itemId == itemId) <
            cart.items.length
      · rw [dif_pos hlt] at h
        cases hq : createQuantity q with
        | error e =>
            rw [hq, exceptBind_error] at h
            exact Except.noConfusion h
        | ok nq =>
            rw [hq, exceptBind_ok] at h
            injection h with h
            subst h
            intro it hit
            rcases List.mem_or_eq_of_mem_set hit with hmem | hmem
            · exact hwf it hmem
            · subst hmem
              obtain ⟨hcur, hnn, -, -⟩ :=
                hwf _ (List.get_mem cart.items _ hlt)
              obtain ⟨-, h1, h99⟩ := createQuantity_ok_inv hq
              exact ⟨hcur, hnn, h1, h99⟩
      · rw [dif_neg hlt] at h
        exact Except.noConfusion h

theorem clearCart_wf {now : Int} {cart : Cart} {cart' : Cart}
    (h : clearCart now cart = .ok cart') : CartWF cart' := by
  rw [clearCart] at h
  cases hassert : assertCartIsActive cart with
  | error e =>
      rw [hassert, exceptBind_error] at h
      exact Except.noConfusion h
  | ok u =>
      rw [hassert, exceptBind_ok] at h
      injection h with h
      subst h
      intro it hit
      simp at hit

theorem checkout_wf {now : Int} {cart : Cart} {cart' : Cart} (hwf : CartWF cart)
    (h : checkout now cart = .ok cart') : CartWF cart' := by
  rw [checkout] at h
  cases hcc : canCheckout cart with
  | false =>
      rw [hcc, if_pos (by decide)] at h
      by_cases h1 : cart.status ≠ .active
      · rw [if_pos h1] at h
        exact Except.noConfusion h
      · rw [if_neg h1] at h
        by_cases h2 : isCartEmpty cart = true
        · rw [if_pos h2] at h
          exact Except.noConfusion h
        · rw [if_neg h2] at h
          exact Except.noConfusion h
  | true =>
      rw [hcc, if_neg (by decide)] at h
      injection h with h
      subst h
      exact hwf

theorem createCart_ok_inv {now : Int} {sid : Str} {cur : Currency} {cart : Cart}
    (h : createCart now sid cur = .ok cart) :
    cart.items = [] ∧ cart.status = .active ∧ cart.currency = cur := by
  rw [createCart] at h
  cases hs : createSessionId sid with
  | error e =>
      rw [hs, exceptBind_error] at h
      exact Except.noConfusion h
  | ok s =>
      rw [hs, exceptBind_ok] at h
      injection h with h
      subst h
      exact ⟨rfl, rfl, rfl⟩

/-- Every reachable cart satisfies the item well-formedness invariant. -/
theorem reachable_wf {cart : Cart} (h : Reachable cart) : CartWF cart := by
  induction h with
  | created now sid cur cart h =>
      obtain ⟨hi, -, -⟩ := createCart_ok_inv h
      intro it hit
      rw [hi] at hit
      simp at hit
  | addItem now freshId cart input cart' hr h ih => exact addItemToCart_wf ih h
  | removeItem now cart itemId cart' hr h ih =>
      exact removeItemFromCart_wf ih h
  | updateQuantity now cart itemId q cart' hr h ih =>
      exact updateItemQuantity_wf ih h
  | clear now cart cart' hr h ih => exact clearCart_wf h
  | doCheckout now cart cart' hr h ih => exact checkout_wf ih h

/-- Folding the cart-total step over well-formed items from a well-formed
accumulator never fails and preserves currency and non-negativity. -/
theorem foldlM_total_ok (c : Currency) :
    ∀ (l : List CartItem) (acc : Money),
      (∀ it ∈ l, ItemWF c it) → acc.currency = c → 0 ≤ acc.amount →
      ∃ m : Money,
        l.foldlM
          (fun total item => do
            let lineTotal ← calculateLineTotal item
            addMoney total lineTotal) acc = .ok m ∧
        m.currency = c ∧ 0 ≤ m.amount := by
  intro l
  induction l with
  | nil =>
      intro acc hl hc ha
      exact ⟨acc, rfl, hc, ha⟩
  | cons a l ih =>
      intro acc hl hc ha
      obtain ⟨hcur, hp, hq1, -⟩ := hl a (List.mem_cons_self a l)
      have hline := calculateLineTotal_ok a hp (by omega)
      have hadd :
          addMoney acc ⟨a.unitPrice.amount * a.quantity.value, a.unitPrice.currency⟩ =
            .ok ⟨acc.amount + a.unitPrice.amount * a.quantity.value, acc.currency⟩ :=
        addMoney_ok _ _ (by rw [hc, hcur]) ha (mul_nonneg hp (by omega))
      rw [List.foldlM_cons, hline, exceptBind_ok, hadd, exceptBind_ok]
      exact ih ⟨acc.amount + a.unitPrice.amount * a.quantity.value, acc.currency⟩
        (fun it hit => hl it (List.mem_cons_of_mem a hit)) hc
        (add_nonneg ha (mul_nonneg hp (by omega)))

/-- On a well-formed cart the total computation succeeds. -/
theorem calculateCartTotal_ok_of_wf {cart : Cart} (hwf : CartWF cart) :
    ∃ m : Money, calculateCartTotal cart = .ok m ∧
      m.currency = cart.currency ∧ 0 ≤ m.amount :=
  foldlM_total_ok cart.currency cart.items (zeroMoney cart.currency) hwf rfl le_rfl

/-- **C10.** For every cart reachable from `createCart` by any sequence of
successful mutator calls, the unitPrice currency of every item equals the
cart's currency — `addItemToCart` overrides any caller-supplied currency in
the input with `cart.currency` — and consequently `calculateCartTotal` never
fails with `CurrencyMismatch` on such a cart (it returns `ok`; the `addMoney`
error branch is unreachable). -/
theorem claim10_reachable_currency_uniform :
    ∀ cart : Cart, Reachable cart →
      (∀ it ∈ cart.items, it.unitPrice.currency = cart.currency) ∧
      ∃ m : Money, calculateCartTotal cart = .ok m := by
  intro cart h
  have hwf := reachable_wf h
  refine ⟨fun it hit => (hwf it hit).1, ?_⟩
  obtain ⟨m, hm, -, -⟩ := calculateCartTotal_ok_of_wf hwf
  exact ⟨m, hm⟩

/-- Witness for C10 at the concrete reachable cart `dupCart1` (an input with
no caller currency still yields the cart's currency on the stored item). -/
theorem claim10_reachable_currency_uniform_witness :
    (∀ it ∈ dupCart1.items, it.unitPrice.currency = dupCart1.currency) ∧
    ∃ m : Money, calculateCartTotal dupCart1 = .ok m :=
  claim10_reachable_currency_uniform dupCart1
    (Reachable.addItem 1 "x".data sampleCartEmpty dupInput1 dupCart1
      (Reachable.created 0 "s1".data .USD sampleCartEmpty
        (by with_unfolding_all rfl))
      (by with_unfolding_all rfl))

/-- **C2 (code-bug evaluation).** The claim's length bound holds, but the
one-item-per-productId part fails: `addItemToCart` compares the raw,
untrimmed `input.productId` against the stored (trimmed) values, so adding
`"p1"` and then `" p1"` (leading space) appends a second item whose stored
productId is again `p1`.  The resulting cart is reachable and carries two
items for the same productId. -/
theorem claim2_duplicate_product_reachable :
    Reachable dupCart2 ∧
    dupCart2.items.length ≤ 20 ∧
    (dupCart2.items.map (fun it => it.productId.value)).count "p1".data = 2 := by
  refine ⟨?_, by decide, by decide⟩
  have h0 : Reachable sampleCartEmpty :=
    Reachable.created 0 "s1".data .USD sampleCartEmpty
      (by with_unfolding_all rfl)
  have h1 : Reachable dupCart1 :=
    Reachable.addItem 1 "x".data sampleCartEmpty dupInput1 dupCart1 h0
      (by with_unfolding_all rfl)
  exact Reachable.addItem 2 "x".data dupCart1 dupInput2 dupCart2 h1
    (by with_unfolding_all rfl)

/-! ### CheckoutResult computation (C7) -/

/-- On items with non-negative price and quantity, building the checkout line
items succeeds and each line total is unit price times quantity. -/
theorem mapM_lineItems_ok :
    ∀ (l : List CartItem),
      (∀ it ∈ l, 0 ≤ it.unitPrice.amount ∧ 0 ≤ it.quantity.value) →
      l.mapM toCheckoutLineItem =
        .ok (l.map (fun it =>
          ⟨it.productId.value, it.productName, it.quantity.value,
           it.unitPrice.amount, it.unitPrice.amount * it.quantity.value⟩)) := by
  intro l
  induction l with
  | nil =>
      intro h
      rfl
  | cons a l ih =>
      intro h
      have ha := h a (List.mem_cons_self a l)
      have hline :
          toCheckoutLineItem a =
            .ok ⟨a.productId.value, a.productName, a.quantity.value,
                 a.unitPrice.amount, a.unitPrice.amount * a.quantity.value⟩ := by
        rw [toCheckoutLineItem, calculateLineTotal_ok a ha.1 ha.2, exceptBind_ok]
      rw [List.mapM_cons, hline, exceptBind_ok,
        ih (fun it hit => h it (List.mem_cons_of_mem a hit)), exceptBind_ok]
      rfl

/-- Full evaluation of `createCheckoutResult` on a checked-out cart with
well-formed items. -/
theorem createCheckoutResult_ok {now : Int} {orderId : Str} {cart : Cart}
    {taxRate : ℚ} (hs : cart.status = .checked_out)
    (hwf : ∀ it ∈ cart.items, 0 ≤ it.unitPrice.amount ∧ 0 ≤ it.quantity.value) :
    createCheckoutResult now orderId cart taxRate =
      .ok ⟨orderId, cart.sessionId.value,
        cart.items.map (fun it =>
          ⟨it.productId.value, it.productName, it.quantity.value,
           it.unitPrice.amount, it.unitPrice.amount * it.quantity.value⟩),
        ⟨(cart.items.map (fun it => it.unitPrice.amount * it.quantity.value)).sum,
         cart.currency⟩,
        ⟨jsMathRound
          ((((cart.items.map
              (fun it => it.unitPrice.amount * it.quantity.value)).sum : Int) : ℚ) *
            taxRate), cart.currency⟩,
        ⟨(cart.items.map (fun it => it.unitPrice.amount * it.quantity.value)).sum +
          jsMathRound
            ((((cart.items.map
                (fun it => it.unitPrice.amount * it.quantity.value)).sum : Int) : ℚ) *
              taxRate), cart.currency⟩,
        (cart.items.map (fun it => it.quantity.value)).sum, now⟩ := by
  rw [createCheckoutResult, if_neg (by simp [hs]),
    mapM_lineItems_ok cart.items hwf, exceptBind_ok]
  have hsub := foldl_add_eq_sum (fun li : CheckoutLineItem => li.lineTotalInCents)
    (cart.items.map (fun it =>
      (⟨it.productId.value, it.productName, it.quantity.value,
        it.unitPrice.amount,
        it.unitPrice.amount * it.quantity.value⟩ : CheckoutLineItem))) 0
  have hcnt := foldl_add_eq_sum (fun li : CheckoutLineItem => li.quantity)
    (cart.items.map (fun it =>
      (⟨it.productId.value, it.productName, it.quantity.value,
        it.unitPrice.amount,
        it.unitPrice.amount * it.quantity.value⟩ : CheckoutLineItem))) 0
  simp only [hsub, hcnt, List.map_map, Function.comp_def, zero_add]

/-- **C7.** For every cart with status checked_out (whose items carry the data
model's non-negative prices and quantities) and every taxRate,
`createCheckoutResult` returns a result with subtotal equal to the sum over
items of lineTotalMinor (unitPrice amount times quantity), tax equal to
round-half-up(subtotal × taxRate) as an integer minor-unit amount
(`jsMathRound`), total equal to subtotal + tax, and itemCount equal to the sum
of item quantities; on a cart whose status is not checked_out it fails with
`CartNotCheckedOut`.  The witness instantiates the particular case subtotal
1000 with taxRate 1/10, giving tax 100 and total 1100. -/
theorem claim7_checkoutResult_formulas :
    ∀ (now : Int) (orderId : Str) (cart : Cart) (taxRate : ℚ),
      (∀ it ∈ cart.items, 0 ≤ it.unitPrice.amount ∧ 0 ≤ it.quantity.value) →
      (cart.status = .checked_out →
        ∃ r : CheckoutResult,
          createCheckoutResult now orderId cart taxRate = .ok r ∧
          r.subtotal.amount =
            (cart.items.map (fun it => it.unitPrice.amount * it.quantity.value)).sum ∧
          r.tax.amount = jsMathRound ((r.subtotal.amount : ℚ) * taxRate) ∧
          r.total.amount = r.subtotal.amount + r.tax.amount ∧
          r.itemCount = (cart.items.map (fun it => it.quantity.value)).sum) ∧
      (cart.status ≠ .checked_out →
        createCheckoutResult now orderId cart taxRate =
          .error .cartNotCheckedOut) := by
  intro now orderId cart taxRate hwf
  constructor
  · intro hs
    exact ⟨_, createCheckoutResult_ok hs hwf, rfl, rfl, rfl, rfl⟩
  · intro hs
    rw [createCheckoutResult, if_pos hs]

/-- Witness for C7: subtotal 1000 with taxRate 1/10 yields tax 100 and total
1100 (and itemCount 1), and a still-active cart is rejected. -/
theorem claim7_checkoutResult_formulas_witness :
    (∃ r : CheckoutResult,
      createCheckoutResult 9 "o1".data checkedOutCart1000 (1 / 10 : ℚ) = .ok r ∧
      r.subtotal.amount = 1000 ∧ r.tax.amount = 100 ∧ r.total.amount = 1100 ∧
      r.itemCount = 1) ∧
    createCheckoutResult 9 "o1".data sampleCart1 (1 / 10 : ℚ) =
      .error .cartNotCheckedOut := by
  constructor
  · obtain ⟨r, hr, hsub, htax, htot, hcnt⟩ :=
      (claim7_checkoutResult_formulas 9 "o1".data checkedOutCart1000 (1 / 10 : ℚ)
        (by decide)).1 rfl
    have h1000 : r.subtotal.amount = 1000 := by
      rw [hsub]
      decide
    have h100 : r.tax.amount = 100 := by
      rw [htax, h1000]
      with_unfolding_all rfl
    refine ⟨r, hr, h1000, h100, ?_, ?_⟩
    · rw [htot, h1000, h100]
      decide
    · rw [hcnt]
      decide
  · exact (claim7_checkoutResult_formulas 9 "o1".data sampleCart1 (1 / 10 : ℚ)
      (by decide)).2 (by decide)

end ShoppingCart
